import Mathlib

/-!
Shallow embedding of the Prpc RPC framework core, translated from the C++
sources: `src/channel.cc` (client channel), `src/provider.cc` (provider
runtime and per-connection handler), `src/controller.cc` (call controller),
`src/zookeeperutil.cc` (coordination-store adapter) and `src/conf.cc`
(configuration loading).  Machine integers are modelled as `Nat` with
explicit `% 2 ^ 32` where the code truncates to `uint32_t`; byte strings
are `List Nat` with each byte below 256 by construction; fallible steps
are driven by explicit environment records describing the outcome of each
system call, so every embedded operation is a total computable function.
-/

namespace Prpc

/-! ### Byte-level codec for the 4-byte length prefix

`channel.cc` appends the raw 4 bytes of the `uint32_t header_size`
(`send_rpc_str.append((char *)&header_size, 4)`) and `provider.cc`
reads them back with `memcpy(&header_size, header_size_buf, 4)`.  On the
little-endian hosts the code targets this is exactly a little-endian
32-bit encoding, which the spec also prescribes. -/

/-- Little-endian 4-byte encoding of a 32-bit value, as laid down by
`send_rpc_str.append((char *)&header_size, 4)` in `channel.cc`. -/
def encodeU32LE (n : Nat) : List Nat :=
  [n % 256, n / 256 % 256, n / 65536 % 256, n / 16777216 % 256]

/-- Little-endian interpretation of the first four bytes of a buffer, as
performed by `memcpy(&header_size, header_size_buf, 4)` in
`provider.cc` (missing bytes read as 0). -/
def decodeU32LE (bs : List Nat) : Nat :=
  bs.getD 0 0 + 256 * bs.getD 1 0 + 65536 * bs.getD 2 0
    + 16777216 * bs.getD 3 0

/-- The assembled wire bytes of one request (`send_rpc_str` in
`channel.cc` 41-45): 4 raw bytes of `uint32_t header_size =
rpc_header_str.size()`, then the header bytes, then the args bytes,
passed to a single `send`. -/
def send_rpc_str (header args : List Nat) : List Nat :=
  encodeU32LE header.length ++ header ++ args

/-- The `Prpc::RpcHeader` record of `header.proto`: service name, method
name and the `uint32 args_size` field. -/
structure RpcHeader where
  service_name : String
  method_name : String
  args_size : Nat
deriving Repr, DecidableEq

/-! ### Call controller (`controller.cc`) -/

/-- State of `Pcontroller`: fields `m_failed`, `m_errText`, `m_timeout_ms`
from `controller.h`; the constructor initialises them to
`(false, "", 5000)`. -/
structure Pcontroller where
  m_failed : Bool
  m_errText : String
  m_timeout_ms : Int
deriving Repr, DecidableEq

/-- The `Pcontroller()` constructor: `m_failed(false), m_errText(""),
m_timeout_ms(5000)`. -/
def Pcontroller.init : Pcontroller := ⟨false, "", 5000⟩

/-- Model: `Pcontroller::Reset`: clears `m_failed` and `m_errText`; does not touch
`m_timeout_ms`. -/
def Pcontroller.Reset (c : Pcontroller) : Pcontroller :=
  { c with m_failed := false, m_errText := "" }

/-- Model: `Pcontroller::Failed`. -/
def Pcontroller.Failed (c : Pcontroller) : Bool := c.m_failed

/-- Model: `Pcontroller::ErrorText`. -/
def Pcontroller.ErrorText (c : Pcontroller) : String := c.m_errText

/-- Model: `Pcontroller::SetFailed`: sets `m_failed := true` and stores the
reason. -/
def Pcontroller.SetFailed (c : Pcontroller) (reason : String) : Pcontroller :=
  { c with m_failed := true, m_errText := reason }

/-- Model: `Pcontroller::SetTimeout`. -/
def Pcontroller.SetTimeout (c : Pcontroller) (t : Int) : Pcontroller :=
  { c with m_timeout_ms := t }

/-- Model: `Pcontroller::GetTimeout`. -/
def Pcontroller.GetTimeout (c : Pcontroller) : Int := c.m_timeout_ms

/-- Model: `Pcontroller::StartCancel` has an empty body. -/
def Pcontroller.StartCancel (c : Pcontroller) : Pcontroller := c

/-- Model: `Pcontroller::IsCanceled` always returns false. -/
def Pcontroller.IsCanceled (_ : Pcontroller) : Bool := false

/-! ### Configuration (`conf.cc`, key usage in `provider.cc` /
`zookeeperutil.cc`) -/

/-- A loaded configuration: the `config_map` of `Pconfig` as an
association list. -/
abbrev Config := List (String × String)

/-- Model: `Pconfig::Load`: map lookup, returning the empty string when the key
is absent. -/
def Pconfig.Load (conf : Config) (key : String) : String :=
  match conf with
  | [] => ""
  | (k, v) :: rest => if k = key then v else Pconfig.Load rest key

/-- The key `Pprovider::Run` passes to `Load` for the advertised ip
(`provider.cc` line 46). -/
def runIpKey : String := "pcserverip"

/-- The key `Pprovider::Run` passes to `Load` for the advertised port
(`provider.cc` line 50). -/
def runPortKey : String := "repcserverport"

/-- The key `ZkClient::Start` passes to `Load` for the store host
(`zookeeperutil.cc` line 31). -/
def zkStartHostKey : String := "zookeeperip"

/-- The key `ZkClient::Start` passes to `Load` for the store port
(`zookeeperutil.cc` line 33). -/
def zkStartPortKey : String := "zookeeperport"

/-- The ip string `Pprovider::Run` obtains from configuration. -/
def runLoadedIp (conf : Config) : String := Pconfig.Load conf runIpKey

/-- The port string `Pprovider::Run` obtains from configuration. -/
def runLoadedPort (conf : Config) : String := Pconfig.Load conf runPortKey

/-- The host string `ZkClient::Start` obtains from configuration. -/
def zkLoadedHost (conf : Config) : String := Pconfig.Load conf zkStartHostKey

/-- The port string `ZkClient::Start` obtains from configuration. -/
def zkLoadedPort (conf : Config) : String := Pconfig.Load conf zkStartPortKey

/-- A configuration with the keys the spec (and the repository's own
tests, e.g. `tests/test_config.cc`) use. -/
def specConfig : Config :=
  [("rpcserverip", "127.0.0.1"), ("rpcserverport", "8080"),
   ("zookeeperip", "127.0.0.1"), ("zookeeperport", "2181")]

/-! ### Client connection pool (`m_connections` in `channel.h`) -/

/-- The channel's `m_connections` map (`std::unordered_map<std::string,
int>`), endpoint key to socket fd, as an association list with unique
keys. -/
abbrev Pool := List (String × Nat)

/-- Map lookup (`m_connections.count` / `m_connections[key]` read). -/
def poolLookup (p : Pool) (k : String) : Option Nat :=
  match p with
  | [] => none
  | (k0, v0) :: rest => if k0 = k then some v0 else poolLookup rest k

/-- Model: `m_connections.erase(key)`. -/
def poolErase (p : Pool) (k : String) : Pool :=
  p.filter (fun e => e.1 ≠ k)

/-- Model: `m_connections[key] = fd` (insert-or-assign). -/
def poolInsert (p : Pool) (k : String) (fd : Nat) : Pool :=
  (k, fd) :: poolErase p k

/-! ### Client channel (`Pchannel::CallMethod`, `channel.cc` 15-139)

The channel performs a fixed sequence of fallible steps (protobuf
serialisation, registry read, socket create/connect, send, recv, parse).
The environment record below fixes the outcome of each external step of
one invocation; `Pchannel.CallMethod` then replays the control flow of
the C++ function over it. -/

/-- Size of `recv_buf` in `Pchannel::CallMethod`
(`char recv_buf[1024]`, `channel.cc` line 114). -/
def RECV_BUF_SIZE : Nat := 1024

/-- Outcome of the single `recv` call in `Pchannel::CallMethod`:
either an error return of -1 (with or without `errno` being
`EAGAIN`/`EWOULDBLOCK`), or the byte stream the kernel delivers
(`data []` is a peer close, returning 0). -/
inductive RecvOutcome
  | err (isTimeout : Bool)
  | data (bytes : List Nat)
deriving Repr, DecidableEq

/-- Environment of one `Pchannel::CallMethod` invocation: descriptor
names, the outcome of every external call, and the byte strings
produced by the serializer. -/
structure CallEnv where
  service_name : String
  method_name : String
  /-- Did `request->SerializeToString` succeed. -/
  serializeReqOk : Bool
  /-- The serialized request (`args_str`). -/
  args_str : List Nat
  /-- Did `rpcHeader.SerializeToString` succeed. -/
  serializeHeaderOk : Bool
  /-- The serialized header (`rpc_header_str`). -/
  rpc_header_str : List Nat
  /-- The value `zkCli.GetData(method_path)` returns (empty ⇒ absent). -/
  host_data : String
  /-- Did `socket(AF_INET, SOCK_STREAM, 0)` succeed. -/
  socketOk : Bool
  /-- The fd a successful `socket` call returns. -/
  newFd : Nat
  /-- Did `connect` succeed. -/
  connectOk : Bool
  /-- Did `send` return something other than -1. -/
  sendOk : Bool
  /-- Outcome of `recv`. -/
  recv : RecvOutcome
  /-- Did `response->ParseFromArray(recv_buf, recv_size)` succeed. -/
  parseOk : Bool
deriving Repr, DecidableEq

/-- Model: `method_path = "/" + service_name + "/" + method_name`. -/
def methodPath (env : CallEnv) : String :=
  "/" ++ env.service_name ++ "/" ++ env.method_name

/-- Model: `host_data.find(":") == std::string::npos` modelled over the char
list. -/
def hasColon (s : String) : Bool := s.data.contains ':'

/-- The bytes the client's single `recv` deposits in `recv_buf`
(at most `RECV_BUF_SIZE` of the stream the kernel delivers). -/
def deliveredBytes (r : RecvOutcome) : List Nat :=
  match r with
  | .err _ => []
  | .data bs => bs.take RECV_BUF_SIZE

/-- The `recv_size` return value of the client's `recv`
(-1 on error, else the delivered byte count, 0 meaning peer close). -/
def recvSize (r : RecvOutcome) : Int :=
  match r with
  | .err _ => -1
  | .data bs => (min bs.length RECV_BUF_SIZE : Nat)

/-- Result state of one `Pchannel::CallMethod` invocation. -/
structure CallOutcome where
  /-- The controller after the call. -/
  ctrl : Pcontroller
  /-- The connection pool after the call. -/
  pool : Pool
  /-- How many times `done->Run()` ran. -/
  doneRuns : Nat
  /-- Model: `some bs` iff `response->ParseFromArray` succeeded on bytes `bs`. -/
  responseBytes : Option (List Nat)
  /-- The fds passed to `close` during the call. -/
  closedFds : List Nat
deriving Repr, DecidableEq

/-- The tail of `Pchannel::CallMethod` once a connected fd is at hand:
apply the receive timeout option, send, recv, parse, run `done`
(`channel.cc` 97-138). -/
def Pchannel.afterConnect (env : CallEnv) (ctrl : Pcontroller) (pool : Pool)
    (doneProvided : Bool) (fd : Nat) : CallOutcome :=
  if env.sendOk = false then
    ⟨ctrl.SetFailed "send error!", poolErase pool env.host_data, 0, none,
      [fd]⟩
  else
    match env.recv with
    | .err t =>
      ⟨ctrl.SetFailed (if t then "recv timeout!" else "recv error!"),
        poolErase pool env.host_data, 0, none, [fd]⟩
    | .data bs =>
      if bs.length = 0 then
        ⟨ctrl.SetFailed "recv error!", poolErase pool env.host_data, 0,
          none, [fd]⟩
      else if env.parseOk = false then
        ⟨ctrl.SetFailed "parse error!", poolErase pool env.host_data, 0,
          none, [fd]⟩
      else
        ⟨ctrl, pool, if doneProvided then 1 else 0,
          some (bs.take RECV_BUF_SIZE), []⟩

/-- Model: `Pchannel::CallMethod` (`channel.cc` 15-139) over an environment, a
controller, the current pool and whether `done` is non-null.  The
function is total: no path throws, every failure goes through
`SetFailed` on the controller. -/
def Pchannel.CallMethod (env : CallEnv) (ctrl : Pcontroller) (pool : Pool)
    (doneProvided : Bool) : CallOutcome :=
  if env.serializeReqOk = false then
    ⟨ctrl.SetFailed "serialize request error!", pool, 0, none, []⟩
  else if env.serializeHeaderOk = false then
    ⟨ctrl.SetFailed "serialize rpc header error!", pool, 0, none, []⟩
  else if env.host_data = "" then
    ⟨ctrl.SetFailed (methodPath env ++ " is not exist!"), pool, 0, none, []⟩
  else if hasColon env.host_data = false then
    ⟨ctrl.SetFailed (methodPath env ++ " address is invalid!"), pool, 0,
      none, []⟩
  else
    -- borrow or create the connection
    match poolLookup pool env.host_data with
    | some fd => Pchannel.afterConnect env ctrl pool doneProvided fd
    | none =>
      if env.socketOk = false then
        ⟨ctrl.SetFailed "create socket error!", pool, 0, none, []⟩
      else if env.connectOk = false then
        ⟨ctrl.SetFailed "connect error!", pool, 0, none, [env.newFd]⟩
      else
        Pchannel.afterConnect env ctrl
          (poolInsert pool env.host_data env.newFd) doneProvided env.newFd

/-- Did the client's `recv` produce a positive byte count. -/
def recvOk (r : RecvOutcome) : Bool :=
  match r with
  | .err _ => false
  | .data bs => !(bs.length = 0)

/-- All steps of `CallMethod` succeed in environment `env` against pool
`pool`. -/
def callSucceeds (env : CallEnv) (pool : Pool) : Bool :=
  env.serializeReqOk && env.serializeHeaderOk && !(env.host_data = "")
    && hasColon env.host_data
    && ((poolLookup pool env.host_data).isSome
        || (env.socketOk && env.connectOk))
    && env.sendOk && recvOk env.recv && env.parseOk

/-! ### Service registry (`Pprovider::NotifyService`, `provider.cc` 20-42)

`m_serviceMap` and `m_methodMap` are `std::unordered_map`s populated with
`insert`, which leaves the map unchanged when the key is already
present.  Service and method descriptors are opaque handles, modelled as
numeric ids. -/

/-- A service descriptor as `NotifyService` introspects it: its name, its
method list (name and opaque descriptor id) and the opaque service
handle. -/
structure ServiceDescriptor where
  name : String
  methods : List (String × Nat)
  handle : Nat
deriving Repr, DecidableEq

/-- Model: `ServiceInfo` from `provider.hpp`: the service handle plus
`m_methodMap`. -/
structure ServiceInfo where
  m_service : Nat
  m_methodMap : List (String × Nat)
deriving Repr, DecidableEq

/-- The provider's `m_serviceMap`. -/
abbrev ServiceMap := List (String × ServiceInfo)

/-- Model: `std::unordered_map::insert`: a no-op when the key is already
present. -/
def mapInsert {α : Type} (m : List (String × α)) (k : String) (v : α) :
    List (String × α) :=
  match m with
  | [] => [(k, v)]
  | (k0, v0) :: rest =>
    if k0 = k then (k0, v0) :: rest else (k0, v0) :: mapInsert rest k v

/-- Model: `std::unordered_map::find` over the association list. -/
def mapFind {α : Type} (m : List (String × α)) (k : String) : Option α :=
  match m with
  | [] => none
  | (k0, v0) :: rest => if k0 = k then some v0 else mapFind rest k

/-- The `ServiceInfo` that `NotifyService` builds for a descriptor: the
method map is filled by `m_methodMap.insert({method_name, pmethodDesc})`
over the descriptor's methods in order. -/
def serviceInfoOf (sd : ServiceDescriptor) : ServiceInfo :=
  ⟨sd.handle, sd.methods.foldl (fun mm p => mapInsert mm p.1 p.2) []⟩

/-- Model: `Pprovider::NotifyService`: builds the `ServiceInfo` and runs
`m_serviceMap.insert({service_name, service_info})`. -/
def Pprovider.NotifyService (reg : ServiceMap) (sd : ServiceDescriptor) :
    ServiceMap :=
  mapInsert reg sd.name (serviceInfoOf sd)

/-! ### Per-connection request handler
(`Pprovider::HandleClientRequest`, `provider.cc` 161-258)

Each of the three read stages issues exactly one `recv`.  The kernel's
behaviour is modelled by the pending byte stream plus a per-call delivery
cap: one `recv(fd, buf, requested, 0)` returns
`min requested (min cap available)` bytes (0 when `requested` is 0 or the
stream is exhausted).  The buffers `rpc_header_str` and `args_str` are
allocated zero-filled at their declared size, so a short read leaves a
zero tail.  Protobuf parsing is an opaque parameter. -/

/-- Environment of one `HandleClientRequest` invocation. -/
structure SrvEnv where
  /-- Bytes pending on the socket. -/
  stream : List Nat
  /-- Delivery cap of the first `recv` (header-size read). -/
  cap1 : Nat
  /-- Delivery cap of the second `recv` (header read). -/
  cap2 : Nat
  /-- Delivery cap of the third `recv` (args read). -/
  cap3 : Nat
  /-- The indeterminate tail of the stack buffer `header_size_buf` when
  fewer than 4 bytes arrive (the buffer is not zero-initialised). -/
  junk : List Nat
  /-- Model: `Prpc::RpcHeader::ParseFromString`: service name, method name and
  `args_size` on success. -/
  parseHeader : List Nat → Option (String × String × Nat)
  /-- Model: `request->ParseFromString(args_str)`. -/
  parseRequest : List Nat → Bool

/-- Bytes delivered by the first `recv` (`recv(clientfd,
header_size_buf, 4, 0)`). -/
def srvN1 (env : SrvEnv) : Nat := min 4 (min env.cap1 env.stream.length)

/-- Stream left after the first `recv`. -/
def srvRest1 (env : SrvEnv) : List Nat := env.stream.drop (srvN1 env)

/-- Model: `header_size` as `memcpy(&header_size, header_size_buf, 4)` computes
it: the delivered prefix followed by whatever was on the stack. -/
def srvHeaderSize (env : SrvEnv) : Nat :=
  decodeU32LE (env.stream.take (srvN1 env) ++ env.junk)

/-- Bytes delivered by the second `recv` (`recv(clientfd,
&rpc_header_str[0], header_size, 0)`). -/
def srvN2 (env : SrvEnv) : Nat :=
  min (srvHeaderSize env) (min env.cap2 (srvRest1 env).length)

/-- The delivered part of the header read. -/
def srvRecv2 (env : SrvEnv) : List Nat := (srvRest1 env).take (srvN2 env)

/-- Stream left after the second `recv`. -/
def srvRest2 (env : SrvEnv) : List Nat := (srvRest1 env).drop (srvN2 env)

/-- The `rpc_header_str` buffer handed to `ParseFromString`: allocated as
`std::string(header_size, '\x00')`, so the unreceived tail stays zero. -/
def srvHeaderBuf (env : SrvEnv) : List Nat :=
  srvRecv2 env ++ List.replicate (srvHeaderSize env - srvN2 env) 0

/-- Result of the header parse. -/
def srvParsedHeader (env : SrvEnv) : Option (String × String × Nat) :=
  env.parseHeader (srvHeaderBuf env)

/-- Model: `args_size` extracted from the parsed header (0 when parsing failed,
in which case it is never used). -/
def srvArgsSize (env : SrvEnv) : Nat :=
  match srvParsedHeader env with
  | some (_, _, a) => a
  | none => 0

/-- Bytes delivered by the third `recv` (`recv(clientfd, &args_str[0],
args_size, 0)`). -/
def srvN3 (env : SrvEnv) : Nat :=
  min (srvArgsSize env) (min env.cap3 (srvRest2 env).length)

/-- The delivered part of the args read. -/
def srvRecv3 (env : SrvEnv) : List Nat := (srvRest2 env).take (srvN3 env)

/-- The `args_str` buffer handed to `request->ParseFromString`: allocated
as `std::string(args_size, '\x00')`, so the unreceived tail stays
zero. -/
def srvArgsBuf (env : SrvEnv) : List Nat :=
  srvRecv3 env ++ List.replicate (srvArgsSize env - srvN3 env) 0

/-- How one `HandleClientRequest` invocation ends. -/
inductive HandlerResult
  /-- First `recv` returned 0 or less: close (`provider.cc` 164-173). -/
  | closedAtLenRead
  /-- Second `recv` returned 0 or less: close (`provider.cc` 181-185). -/
  | closedAtHeaderRead
  /-- Model: `RpcHeader` parse failed: close (`provider.cc` 196-200). -/
  | closedAtHeaderParse
  /-- Third `recv` returned 0 or less: close (`provider.cc` 205-209). -/
  | closedAtArgsRead
  /-- Unknown service: close (`provider.cc` 213-217). -/
  | closedAtServiceLookup
  /-- Unknown method: close (`provider.cc` 220-225). -/
  | closedAtMethodLookup
  /-- Request parse failed: close (`provider.cc` 233-238). -/
  | closedAtRequestParse
  /-- Model: `service->CallMethod(method, nullptr, request, response, done)`
  invoked with the parsed request bytes. -/
  | dispatched (serviceHandle : Nat) (methodDesc : Nat) (args : List Nat)
deriving Repr, DecidableEq

/-- Model: `Pprovider::HandleClientRequest` (`provider.cc` 161-258). -/
def Pprovider.HandleClientRequest (reg : ServiceMap) (env : SrvEnv) :
    HandlerResult :=
  if srvN1 env = 0 then .closedAtLenRead
  else if srvN2 env = 0 then .closedAtHeaderRead
  else
    match srvParsedHeader env with
    | none => .closedAtHeaderParse
    | some (service_name, method_name, _) =>
      if srvN3 env = 0 then .closedAtArgsRead
      else
        match mapFind reg service_name with
        | none => .closedAtServiceLookup
        | some info =>
          match mapFind info.m_methodMap method_name with
          | none => .closedAtMethodLookup
          | some mdesc =>
            if env.parseRequest (srvArgsBuf env) then
              .dispatched info.m_service mdesc (srvArgsBuf env)
            else .closedAtRequestParse

/-! ### Coordination-store adapter (`ZkClient::Create`,
`zookeeperutil.cc` 50-80 and its callbacks 105-145)

The adapter chains `zoo_aexists` into `zoo_acreate`; each call site may
fail to enqueue (a non-`ZOK` immediate return) and each callback receives
a result code.  `ZOK = 0`; `ZNONODE` is the distinguished
node-absent code. -/

/-- The `ZNONODE` result code of the zookeeper client library. -/
def ZNONODE : Int := -101

/-- Environment of one `ZkClient::Create` invocation. -/
structure ZkCreateEnv where
  /-- Immediate return of `zoo_aexists`. -/
  aexistsRc : Int
  /-- The code delivered to `exists_completion_callback`. -/
  existsCbRc : Int
  /-- Immediate return of `zoo_acreate`. -/
  acreateRc : Int
  /-- The code delivered to `create_completion_callback`. -/
  createCbRc : Int
deriving Repr, DecidableEq

/-- Observable outcome of one `ZkClient::Create` invocation. -/
structure ZkCreateOutcome where
  /-- Did the call reach `future.get()` (the synchronous wait). -/
  blocked : Bool
  /-- The value set on `promise_rc`, `none` when no path set it. -/
  promiseSet : Option Int
  /-- Was `zoo_acreate` invoked (a write was attempted). -/
  createSubmitted : Bool
deriving Repr, DecidableEq

/-- Model: `ZkClient::Create` together with `exists_completion_callback` and
`create_completion_callback` (`zookeeperutil.cc` 50-145). -/
def ZkClient.Create (env : ZkCreateEnv) : ZkCreateOutcome :=
  if env.aexistsRc ≠ 0 then
    -- zoo_aexists failed to enqueue: log, delete context, return early
    ⟨false, none, false⟩
  else if env.existsCbRc = 0 then
    -- node exists: promise completed with ZOK, no create
    ⟨true, some 0, false⟩
  else if env.existsCbRc = ZNONODE then
    if env.acreateRc ≠ 0 then
      -- zoo_acreate failed to enqueue: promise completed with its code
      ⟨true, some env.acreateRc, true⟩
    else
      -- create callback completes the promise with its code
      ⟨true, some env.createCbRc, true⟩
  else
    -- unexpected exists code: promise completed with it
    ⟨true, some env.existsCbRc, false⟩

/-! ### Derived views and concrete environments used by the theorems -/

/-- The `RpcHeader` record `CallMethod` fills before serialising it
(`channel.cc` 30-33): `set_args_size(args_str.size())` stores the length
truncated to `uint32`. -/
def callHeaderRecord (env : CallEnv) : RpcHeader :=
  ⟨env.service_name, env.method_name, env.args_str.length % 4294967296⟩

/-- The wire bytes one `CallMethod` invocation sends. -/
def callFrame (env : CallEnv) : List Nat :=
  send_rpc_str env.rpc_header_str env.args_str

/-- A server environment whose socket holds exactly the given bytes and
whose kernel delivers as much as is asked (used to state how the server
interprets a client frame; the parse functions are irrelevant to the
length-prefix stage). -/
def frameSrvEnv (bytes : List Nat) : SrvEnv :=
  ⟨bytes, 1024, 1024, 1024, [], fun _ => none, fun _ => false⟩

/-- A client-call environment in which every step succeeds. -/
def envOk : CallEnv :=
  { service_name := "UserService", method_name := "Login",
    serializeReqOk := true, args_str := [8, 1],
    serializeHeaderOk := true, rpc_header_str := [3, 4, 5],
    host_data := "127.0.0.1:7001", socketOk := true, newFd := 5,
    connectOk := true, sendOk := true, recv := .data [1, 2, 3],
    parseOk := true }

/-- The successful environment, except that `recv` returns -1 with
`errno` equal to `EAGAIN`/`EWOULDBLOCK`. -/
def envTimeout : CallEnv := { envOk with recv := .err true }

/-- A registered service, as built by the sample `callee` server: one
service with one method. -/
def sdA : ServiceDescriptor := ⟨"UserService", [("Login", 1)], 1⟩

/-- A second registration with the same service name but a different
handle and method descriptor. -/
def sdB : ServiceDescriptor := ⟨"UserService", [("Login", 2)], 2⟩

/-- The registry after `NotifyService(sdA)` on an empty provider. -/
def regUser : ServiceMap := Pprovider.NotifyService [] sdA

/-- A server environment carrying a well-formed request whose header
declares `args_size = 0`: length prefix 2, two header bytes, nothing
else; the header parser recognises the registered service and method. -/
def srvEnvArgs0 : SrvEnv :=
  { stream := [2, 0, 0, 0, 9, 9], cap1 := 1024, cap2 := 1024,
    cap3 := 1024, junk := [],
    parseHeader := fun _ => some ("UserService", "Login", 0),
    parseRequest := fun _ => true }

/-- A server environment in which the header read is short: the header
is declared 8 bytes long and all 8 bytes (plus the 4 args bytes the
header announces) are pending on the socket, but the kernel delivers
only 4 bytes to the second `recv`. -/
def srvEnvShort : SrvEnv :=
  { stream := [8, 0, 0, 0, 1, 2, 3, 4, 5, 6, 7, 8, 42, 42, 42, 42],
    cap1 := 1024, cap2 := 4, cap3 := 1024, junk := [],
    parseHeader := fun _ => some ("UserService", "Login", 4),
    parseRequest := fun _ => true }

/-- A `Create` environment in which `zoo_aexists` itself fails to
enqueue (returns `ZCONNECTIONLOSS = -4` immediately). -/
def zkEnvEnqueueFail : ZkCreateEnv := ⟨-4, 0, 0, 0⟩

/-- A `Create` environment in which every step reports success and the
node already exists. -/
def zkEnvExists : ZkCreateEnv := ⟨0, 0, 0, 0⟩

/-! ## Helper lemmas -/

theorem length_encodeU32LE (n : Nat) : (encodeU32LE n).length = 4 := rfl

theorem decode_encodeU32LE_append (n : Nat) (rest : List Nat) :
    decodeU32LE (encodeU32LE n ++ rest) = n % 4294967296 := by
  simp only [decodeU32LE, encodeU32LE, List.cons_append, List.getD,
    List.get?_eq_getElem?, List.getElem?_cons_zero, List.getElem?_cons_succ,
    Option.getD_some]
  omega

theorem decode_encodeU32LE (n : Nat) :
    decodeU32LE (encodeU32LE n) = n % 4294967296 := by
  have h := decode_encodeU32LE_append n []
  simpa using h

theorem poolLookup_poolErase (p : Pool) (k : String) :
    poolLookup (poolErase p k) k = none := by
  induction p with
  | nil => rfl
  | cons e rest ih =>
    by_cases h : e.1 = k
    · simpa [poolErase, List.filter, h] using ih
    · simpa [poolErase, List.filter, h, poolLookup] using ih

theorem mapFind_mapInsert_absent {α : Type} (m : List (String × α))
    (k : String) (v : α) (h : mapFind m k = none) :
    mapFind (mapInsert m k v) k = some v := by
  induction m with
  | nil => simp [mapInsert, mapFind]
  | cons e rest ih =>
    by_cases hk : e.1 = k
    · simp [mapFind, hk] at h
    · simp only [mapFind, hk, if_false] at h
      simpa [mapInsert, mapFind, hk] using ih h

theorem mapInsert_present {α : Type} (m : List (String × α)) (k : String)
    (v : α) (h : (mapFind m k).isSome) : mapInsert m k v = m := by
  induction m with
  | nil => simp [mapFind] at h
  | cons e rest ih =>
    obtain ⟨k0, v0⟩ := e
    by_cases hk : k0 = k
    · simp [mapInsert, hk]
    · simp only [mapFind, hk, if_false] at h
      simp [mapInsert, hk, ih h]

theorem appendRight_ne_empty (s t : String) (ht : 0 < t.length) :
    s ++ t ≠ "" := by
  intro h
  have hl := congrArg String.length h
  rw [String.length_append] at hl
  simp only [String.length_empty] at hl
  omega

/-! ## Claim theorems -/

/-- Claim C10: `Pcontroller::Reset` clears the failed flag and the error
text but leaves the timeout unchanged; `SetFailed` and the inert
`StartCancel` also leave the timeout unchanged, and only `SetTimeout`
sets it. -/
theorem controller_reset_frame (c : Pcontroller) (r : String) (t : Int) :
    (c.Reset).m_failed = false ∧
    (c.Reset).m_errText = "" ∧
    (c.Reset).GetTimeout = c.GetTimeout ∧
    (c.SetFailed r).GetTimeout = c.GetTimeout ∧
    (c.StartCancel).GetTimeout = c.GetTimeout ∧
    (c.SetTimeout t).GetTimeout = t :=
  ⟨rfl, rfl, rfl, rfl, rfl, rfl⟩

/-- Claim C6 (code bug): `Pprovider::Run` asks the configuration for the
keys "pcserverip" and "repcserverport", not the documented
"rpcserverip" and "rpcserverport"; against a configuration holding the
documented keys (the ones the repository's own tests write) it obtains
empty strings.  The coordination-store adapter does read "zookeeperip"
and "zookeeperport" as documented. -/
theorem run_config_keys_bug :
    runLoadedIp specConfig = "" ∧
    runLoadedPort specConfig = "" ∧
    runIpKey ≠ "rpcserverip" ∧
    runPortKey ≠ "rpcserverport" ∧
    zkLoadedHost specConfig = "127.0.0.1" ∧
    zkLoadedPort specConfig = "2181" ∧
    zkStartHostKey = "zookeeperip" ∧
    zkStartPortKey = "zookeeperport" := by
  refine ⟨rfl, rfl, ?_, ?_, rfl, rfl, rfl, rfl⟩ <;> decide

/-- Claim C9 counterexample: when `zoo_aexists` fails to enqueue,
`ZkClient::Create` returns early without completing the pending future
and without ever blocking, so the claim that the call blocks in every
case and that every early-exit path completes the future is false. -/
theorem create_enqueue_fail_abandons_future :
    (ZkClient.Create zkEnvEnqueueFail).promiseSet = none ∧
    (ZkClient.Create zkEnvEnqueueFail).blocked = false := by
  exact ⟨rfl, rfl⟩

/-- Claim C9 (amended): `ZkClient::Create` runs an exists-then-create
chain; whenever it blocks on the future (exactly when `zoo_aexists`
enqueued successfully) some path completes the future, so the caller
cannot hang; if the node exists the call completes with `ZOK` without
attempting a write; if the node is absent a create is attempted; the
enqueue-failure path returns early without blocking and without
completing the future. -/
theorem create_chain_contract (env : ZkCreateEnv) :
    ((ZkClient.Create env).blocked = true →
      ((ZkClient.Create env).promiseSet).isSome) ∧
    ((ZkClient.Create env).blocked = true ↔ env.aexistsRc = 0) ∧
    (env.aexistsRc = 0 → env.existsCbRc = 0 →
      ZkClient.Create env = ⟨true, some 0, false⟩) ∧
    (env.aexistsRc = 0 → env.existsCbRc = ZNONODE →
      (ZkClient.Create env).createSubmitted = true) ∧
    (env.aexistsRc ≠ 0 → ZkClient.Create env = ⟨false, none, false⟩) := by
  by_cases h1 : env.aexistsRc = 0
  · by_cases h2 : env.existsCbRc = 0
    · simp only [ZkClient.Create, h1, h2, ZNONODE]
      refine ⟨fun _ => rfl, by simp, fun _ _ => rfl, fun _ hc => ?_, by simp⟩
      · exact absurd hc (by decide)
    · by_cases h3 : env.existsCbRc = ZNONODE
      · by_cases h4 : env.acreateRc = 0 <;>
          simp_all [ZkClient.Create, ZNONODE]
      · simp_all [ZkClient.Create, ZNONODE]
  · simp_all [ZkClient.Create, ZNONODE]

/-- Claim C9 witness: the amended contract evaluated on the environment
where the node already exists. -/
theorem create_chain_contract_witness :
    ZkClient.Create zkEnvExists = ⟨true, some 0, false⟩ :=
  (create_chain_contract zkEnvExists).2.2.1 rfl rfl

/-- Claim C5 counterexample: `m_serviceMap.insert` does not overwrite:
after `NotifyService(sdA)` then `NotifyService(sdB)` with the same
service name, lookup still yields the first registration, whose handle
and method map differ from the second. -/
theorem notifyservice_no_overwrite :
    mapFind (Pprovider.NotifyService (Pprovider.NotifyService [] sdA) sdB)
        "UserService" = some (serviceInfoOf sdA) ∧
    serviceInfoOf sdA ≠ serviceInfoOf sdB := by
  refine ⟨rfl, ?_⟩
  decide

/-- Claim C5 (amended): when `NotifyService` is called twice with
services of the same name, the earliest registration wins: the second
`insert` is a no-op and lookup yields the handle and method map of the
first registration. -/
theorem notifyservice_first_wins (reg : ServiceMap)
    (sd1 sd2 : ServiceDescriptor) (h1 : mapFind reg sd1.name = none)
    (h2 : sd2.name = sd1.name) :
    mapFind (Pprovider.NotifyService (Pprovider.NotifyService reg sd1) sd2)
      sd1.name = some (serviceInfoOf sd1) := by
  have hfst : mapFind (mapInsert reg sd1.name (serviceInfoOf sd1)) sd1.name
      = some (serviceInfoOf sd1) :=
    mapFind_mapInsert_absent reg sd1.name (serviceInfoOf sd1) h1
  unfold Pprovider.NotifyService
  rw [h2, mapInsert_present _ _ _ (by rw [hfst]; rfl), hfst]

/-- Claim C5 witness: the amended statement at the two concrete
registrations. -/
theorem notifyservice_first_wins_witness :
    mapFind (Pprovider.NotifyService (Pprovider.NotifyService [] sdA) sdB)
      sdA.name = some (serviceInfoOf sdA) :=
  notifyservice_first_wins [] sdA sdB rfl rfl

/-- Claim C2: the client's wire bytes are the 4-byte little-endian
header length (equal to the byte length of the serialized `RpcHeader`,
whose `args_size` field holds the serialized request length), then the
header bytes, then exactly the args bytes, assembled into one string
handed to a single `send`; and the server's little-endian reading of the
first 4 bytes recovers the header length. -/
theorem wire_frame_layout (env : CallEnv)
    (hh : env.rpc_header_str.length < 4294967296)
    (ha : env.args_str.length < 4294967296) :
    callFrame env
      = encodeU32LE env.rpc_header_str.length ++ env.rpc_header_str
          ++ env.args_str ∧
    (callFrame env).take 4 = encodeU32LE env.rpc_header_str.length ∧
    decodeU32LE (callFrame env) = env.rpc_header_str.length ∧
    ((callFrame env).drop 4).take env.rpc_header_str.length
      = env.rpc_header_str ∧
    ((callFrame env).drop 4).drop env.rpc_header_str.length
      = env.args_str ∧
    (callHeaderRecord env).args_size = env.args_str.length ∧
    srvHeaderSize (frameSrvEnv (callFrame env))
      = env.rpc_header_str.length := by
  have htake : (callFrame env).take 4
      = encodeU32LE env.rpc_header_str.length := by
    rw [callFrame, send_rpc_str, List.append_assoc]
    exact List.take_left' (length_encodeU32LE _)
  have hdrop : (callFrame env).drop 4
      = env.rpc_header_str ++ env.args_str := by
    rw [callFrame, send_rpc_str, List.append_assoc]
    exact List.drop_left' (length_encodeU32LE _)
  have hdec : decodeU32LE (callFrame env) = env.rpc_header_str.length := by
    rw [callFrame, send_rpc_str, List.append_assoc,
      decode_encodeU32LE_append]
    exact Nat.mod_eq_of_lt hh
  have hlen : 4 ≤ (callFrame env).length := by
    rw [callFrame, send_rpc_str]
    simp [encodeU32LE]
  have hn1 : srvN1 (frameSrvEnv (callFrame env)) = 4 := by
    show min 4 (min 1024 (callFrame env).length) = 4
    omega
  have hsrv : srvHeaderSize (frameSrvEnv (callFrame env))
      = env.rpc_header_str.length := by
    show decodeU32LE
      ((callFrame env).take (srvN1 (frameSrvEnv (callFrame env))) ++ []) = _
    rw [hn1, List.append_nil, htake, decode_encodeU32LE]
    exact Nat.mod_eq_of_lt hh
  refine ⟨rfl, htake, hdec, ?_, ?_, Nat.mod_eq_of_lt ha, hsrv⟩
  · rw [hdrop]
    exact List.take_left _ _
  · rw [hdrop]
    exact List.drop_left _ _

/-- Claim C2 witness: the frame layout evaluated on the concrete
successful environment. -/
theorem wire_frame_layout_witness :
    decodeU32LE (callFrame envOk) = envOk.rpc_header_str.length ∧
    ((callFrame envOk).drop 4).drop envOk.rpc_header_str.length
      = envOk.args_str := by
  have h := wire_frame_layout envOk (by decide) (by decide)
  exact ⟨h.2.2.1, h.2.2.2.2.1⟩

/-- Claim C4 counterexample: with a well-formed 8-byte header pending
(16 bytes on the socket in total, so the peer has not closed) but the
kernel delivering only 4 bytes to the header read, the handler does not
retry: it accepts the short read (`srvN2 = 4` of the 8 requested) and
carries on all the way to dispatch. -/
theorem short_read_not_retried :
    srvHeaderSize srvEnvShort = 8 ∧
    srvN2 srvEnvShort = 4 ∧
    srvEnvShort.stream.length = 16 ∧
    Pprovider.HandleClientRequest regUser srvEnvShort
      = HandlerResult.dispatched 1 1 [5, 6, 7, 8] :=
  ⟨rfl, rfl, rfl, rfl⟩

/-- Claim C4 (amended): each request-read stage performs exactly one
`recv` of the requested count; the call is abandoned (connection
closed) only when that single `recv` returns zero bytes; a short
positive read is accepted without retry, the stage buffer keeping the
delivered prefix with the remainder zero-filled. -/
theorem single_recv_per_stage (reg : ServiceMap) (env : SrvEnv)
    (s m : String) (a : Nat)
    (h1 : srvN1 env ≠ 0) (h2 : srvN2 env ≠ 0)
    (h3 : srvParsedHeader env = some (s, m, a)) :
    srvN2 env = min (srvHeaderSize env)
        (min env.cap2 (env.stream.length - srvN1 env)) ∧
    srvN3 env = min a
        (min env.cap3 (env.stream.length - srvN1 env - srvN2 env)) ∧
    srvHeaderBuf env
      = srvRecv2 env ++ List.replicate (srvHeaderSize env - srvN2 env) 0 ∧
    (srvHeaderBuf env).length = srvHeaderSize env ∧
    srvArgsBuf env = srvRecv3 env ++ List.replicate (a - srvN3 env) 0 ∧
    (srvArgsBuf env).length = a ∧
    (Pprovider.HandleClientRequest reg env = HandlerResult.closedAtArgsRead
      ↔ srvN3 env = 0) ∧
    Pprovider.HandleClientRequest reg env ≠ HandlerResult.closedAtLenRead ∧
    Pprovider.HandleClientRequest reg env
      ≠ HandlerResult.closedAtHeaderRead := by
  have hsz : srvArgsSize env = a := by simp [srvArgsSize, h3]
  have hlen1 : (srvRest1 env).length = env.stream.length - srvN1 env := by
    rw [srvRest1, List.length_drop]
  have hlen2 : (srvRest2 env).length
      = env.stream.length - srvN1 env - srvN2 env := by
    rw [srvRest2, List.length_drop, hlen1]
  have hn2le : srvN2 env ≤ srvHeaderSize env := by
    unfold srvN2
    omega
  have hn2rest : srvN2 env ≤ (srvRest1 env).length := by
    unfold srvN2
    omega
  have hn3le : srvN3 env ≤ a := by
    unfold srvN3
    rw [hsz]
    omega
  have hn3rest : srvN3 env ≤ (srvRest2 env).length := by
    unfold srvN3
    omega
  have hunf : Pprovider.HandleClientRequest reg env
      = if srvN3 env = 0 then HandlerResult.closedAtArgsRead
        else
          match mapFind reg s with
          | none => HandlerResult.closedAtServiceLookup
          | some info =>
            match mapFind info.m_methodMap m with
            | none => HandlerResult.closedAtMethodLookup
            | some mdesc =>
              if env.parseRequest (srvArgsBuf env) then
                HandlerResult.dispatched info.m_service mdesc (srvArgsBuf env)
              else HandlerResult.closedAtRequestParse := by
    unfold Pprovider.HandleClientRequest
    rw [if_neg h1, if_neg h2, h3]
  have hres :
      (Pprovider.HandleClientRequest reg env
          = HandlerResult.closedAtArgsRead ↔ srvN3 env = 0) ∧
      Pprovider.HandleClientRequest reg env
        ≠ HandlerResult.closedAtLenRead ∧
      Pprovider.HandleClientRequest reg env
        ≠ HandlerResult.closedAtHeaderRead := by
    rw [hunf]
    by_cases hn3 : srvN3 env = 0
    · simp [hn3]
    · rcases hf : mapFind reg s with _ | info
      · simp [hn3, hf]
      · rcases hg : mapFind info.m_methodMap m with _ | md
        · simp [hn3, hf, hg]
        · by_cases hp : env.parseRequest (srvArgsBuf env) <;>
            simp [hn3, hf, hg, hp]

  refine ⟨?_, ?_, rfl, ?_, ?_, ?_, hres.1, hres.2.1, hres.2.2⟩
  · unfold srvN2
    rw [hlen1]
  · unfold srvN3
    rw [hsz, hlen2]
  · rw [srvHeaderBuf, List.length_append, List.length_replicate, srvRecv2,
      List.length_take]
    omega
  · rw [srvArgsBuf, hsz]
  · rw [srvArgsBuf, hsz, List.length_append, List.length_replicate,
      srvRecv3, List.length_take]
    omega

/-- Claim C4 witness: the amended statement evaluated on the concrete
short-read environment. -/
theorem single_recv_per_stage_witness :
    (srvHeaderBuf srvEnvShort).length = srvHeaderSize srvEnvShort ∧
    Pprovider.HandleClientRequest regUser srvEnvShort
      ≠ HandlerResult.closedAtHeaderRead := by
  have h := single_recv_per_stage regUser srvEnvShort "UserService" "Login"
    4 (by decide) (by decide) rfl
  exact ⟨h.2.2.2.1, h.2.2.2.2.2.2.2.2⟩

/-- Claim C8 counterexample: a request whose header declares
`args_size = 0` is not dispatched even though its service and method are
registered: the zero-length args `recv` returns 0, which the handler
treats as an error, so it closes the connection. -/
theorem args0_closes_connection :
    Pprovider.HandleClientRequest regUser srvEnvArgs0
      = HandlerResult.closedAtArgsRead ∧
    srvArgsSize srvEnvArgs0 = 0 ∧
    (mapFind regUser "UserService").isSome = true :=
  ⟨rfl, rfl, rfl⟩

/-- Claim C8 (amended): when the parsed header declares `args_size = 0`,
the args-stage `recv` is issued with length 0 and returns 0, which the
handler treats as a receive error: the connection is closed and the
method is never looked up or dispatched. -/
theorem args0_read_returns_zero (reg : ServiceMap) (env : SrvEnv)
    (s m : String)
    (h1 : srvN1 env ≠ 0) (h2 : srvN2 env ≠ 0)
    (h3 : srvParsedHeader env = some (s, m, 0)) :
    srvN3 env = 0 ∧
    Pprovider.HandleClientRequest reg env
      = HandlerResult.closedAtArgsRead := by
  have hsz : srvArgsSize env = 0 := by simp [srvArgsSize, h3]
  have hn3 : srvN3 env = 0 := by
    unfold srvN3
    rw [hsz]
    simp
  refine ⟨hn3, ?_⟩
  unfold Pprovider.HandleClientRequest
  rw [if_neg h1, if_neg h2, h3]
  simp [hn3]

/-- Claim C8 witness: the amended statement evaluated on the concrete
zero-args environment. -/
theorem args0_read_returns_zero_witness :
    Pprovider.HandleClientRequest regUser srvEnvArgs0
      = HandlerResult.closedAtArgsRead :=
  (args0_read_returns_zero regUser srvEnvArgs0 "UserService" "Login"
    (by decide) (by decide) rfl).2

/-! Helper lemmas about the channel tail. -/

theorem afterConnect_success (env : CallEnv) (ctrl : Pcontroller)
    (pool : Pool) (dp : Bool) (fd : Nat) (h6 : env.sendOk = true)
    (h7 : recvOk env.recv = true) (h8 : env.parseOk = true) :
    Pchannel.afterConnect env ctrl pool dp fd
      = ⟨ctrl, pool, if dp then 1 else 0,
          some (deliveredBytes env.recv), []⟩ := by
  rcases hr : env.recv with t | bs
  · rw [hr] at h7
    simp [recvOk] at h7
  · have hbs : ¬(bs.length = 0) := by
      rw [hr] at h7
      simpa [recvOk] using h7
    simp [Pchannel.afterConnect, h6, h8, hr, hbs, deliveredBytes]

theorem afterConnect_failure (env : CallEnv) (ctrl : Pcontroller)
    (pool : Pool) (dp : Bool) (fd : Nat)
    (h : env.sendOk = false ∨ recvOk env.recv = false
        ∨ env.parseOk = false) :
    (Pchannel.afterConnect env ctrl pool dp fd).ctrl.m_failed = true ∧
    (Pchannel.afterConnect env ctrl pool dp fd).ctrl.m_errText ≠ "" ∧
    (Pchannel.afterConnect env ctrl pool dp fd).doneRuns = 0 ∧
    (Pchannel.afterConnect env ctrl pool dp fd).responseBytes = none ∧
    (Pchannel.afterConnect env ctrl pool dp fd).pool
      = poolErase pool env.host_data ∧
    (Pchannel.afterConnect env ctrl pool dp fd).closedFds = [fd] := by
  rcases hs : env.sendOk with _ | _
  · simp [Pchannel.afterConnect, hs, Pcontroller.SetFailed]
  · rcases hr : env.recv with t | bs
    · cases t <;>
        simp [Pchannel.afterConnect, hs, hr, Pcontroller.SetFailed]
    · by_cases hbs : bs.length = 0
      · simp [Pchannel.afterConnect, hs, hr, hbs, Pcontroller.SetFailed]
      · have hp : env.parseOk = false := by
          rcases h with h | h | h
          · rw [hs] at h
            cases h
          · rw [hr] at h
            simp [recvOk, hbs] at h
          · exact h
        simp [Pchannel.afterConnect, hs, hr, hbs, hp, Pcontroller.SetFailed]

theorem ioFailureOfNot (env : CallEnv)
    (h : ¬(env.sendOk = true ∧ recvOk env.recv = true
        ∧ env.parseOk = true)) :
    env.sendOk = false ∨ recvOk env.recv = false ∨ env.parseOk = false := by
  rcases hs : env.sendOk with _ | _
  · exact Or.inl rfl
  · rcases hr : recvOk env.recv with _ | _
    · exact Or.inr (Or.inl rfl)
    · rcases hp : env.parseOk with _ | _
      · exact Or.inr (Or.inr rfl)
      · exact absurd ⟨hs, hr, hp⟩ h

theorem length_deliveredBytes (r : RecvOutcome) :
    (deliveredBytes r).length ≤ RECV_BUF_SIZE := by
  rcases r with t | bs
  · simp [deliveredBytes]
  · simp [deliveredBytes, List.length_take]

/-- Exhaustive description of one `CallMethod` invocation: either every
step succeeds and the call returns with the controller untouched, the
parsed bytes recorded and `done` run once when provided; or some step
fails and the call returns with the controller failed, a nonempty error
text, no `done` run and no response. -/
theorem callmethod_cases (env : CallEnv) (ctrl : Pcontroller) (pool : Pool)
    (dp : Bool) :
    (callSucceeds env pool = true ∧
      ∃ pool2, Pchannel.CallMethod env ctrl pool dp
        = ⟨ctrl, pool2, if dp then 1 else 0,
            some (deliveredBytes env.recv), []⟩)
    ∨ (callSucceeds env pool = false ∧
        (Pchannel.CallMethod env ctrl pool dp).ctrl.m_failed = true ∧
        (Pchannel.CallMethod env ctrl pool dp).ctrl.m_errText ≠ "" ∧
        (Pchannel.CallMethod env ctrl pool dp).doneRuns = 0 ∧
        (Pchannel.CallMethod env ctrl pool dp).responseBytes = none) := by
  rcases hsr : env.serializeReqOk with _ | _
  · right
    have hcall : Pchannel.CallMethod env ctrl pool dp
        = ⟨ctrl.SetFailed "serialize request error!", pool, 0, none, []⟩ := by
      simp [Pchannel.CallMethod, hsr]
    rw [hcall]
    refine ⟨by simp [callSucceeds, hsr], rfl, ?_, rfl, rfl⟩
    simp [Pcontroller.SetFailed]
  · rcases hsh : env.serializeHeaderOk with _ | _
    · right
      have hcall : Pchannel.CallMethod env ctrl pool dp
          = ⟨ctrl.SetFailed "serialize rpc header error!", pool, 0, none,
              []⟩ := by
        simp [Pchannel.CallMethod, hsr, hsh]
      rw [hcall]
      refine ⟨by simp [callSucceeds, hsh], rfl, ?_, rfl, rfl⟩
      simp [Pcontroller.SetFailed]
    · by_cases hhd : env.host_data = ""
      · right
        have hcall : Pchannel.CallMethod env ctrl pool dp
            = ⟨ctrl.SetFailed (methodPath env ++ " is not exist!"), pool, 0,
                none, []⟩ := by
          simp [Pchannel.CallMethod, hsr, hsh, hhd]
        rw [hcall]
        refine ⟨by simp [callSucceeds, hhd], rfl, ?_, rfl, rfl⟩
        exact appendRight_ne_empty _ _ (by decide)
      · rcases hcol : hasColon env.host_data with _ | _
        · right
          have hcall : Pchannel.CallMethod env ctrl pool dp
              = ⟨ctrl.SetFailed (methodPath env ++ " address is invalid!"),
                  pool, 0, none, []⟩ := by
            simp [Pchannel.CallMethod, hsr, hsh, hhd, hcol]
          rw [hcall]
          refine ⟨by simp [callSucceeds, hcol], rfl, ?_, rfl, rfl⟩
          exact appendRight_ne_empty _ _ (by decide)
        · rcases hpl : poolLookup pool env.host_data with _ | fd
          · rcases hsok : env.socketOk with _ | _
            · right
              have hcall : Pchannel.CallMethod env ctrl pool dp
                  = ⟨ctrl.SetFailed "create socket error!", pool, 0, none,
                      []⟩ := by
                simp [Pchannel.CallMethod, hsr, hsh, hhd, hcol, hpl, hsok]
              rw [hcall]
              refine ⟨by simp [callSucceeds, hpl, hsok], rfl, ?_, rfl, rfl⟩
              simp [Pcontroller.SetFailed]
            · rcases hcok : env.connectOk with _ | _
              · right
                have hcall : Pchannel.CallMethod env ctrl pool dp
                    = ⟨ctrl.SetFailed "connect error!", pool, 0, none,
                        [env.newFd]⟩ := by
                  simp [Pchannel.CallMethod, hsr, hsh, hhd, hcol, hpl,
                    hsok, hcok]
                rw [hcall]
                refine ⟨by simp [callSucceeds, hpl, hcok], rfl, ?_, rfl,
                  rfl⟩
                simp [Pcontroller.SetFailed]
              · have hcall : Pchannel.CallMethod env ctrl pool dp
                    = Pchannel.afterConnect env ctrl
                        (poolInsert pool env.host_data env.newFd) dp
                        env.newFd := by
                  simp [Pchannel.CallMethod, hsr, hsh, hhd, hcol, hpl,
                    hsok, hcok]
                by_cases hio : env.sendOk = true ∧ recvOk env.recv = true
                    ∧ env.parseOk = true
                · left
                  obtain ⟨h6, h7, h8⟩ := hio
                  refine ⟨by simp [callSucceeds, hsr, hsh, hhd, hcol, hpl,
                    hsok, hcok, h6, h7, h8], poolInsert pool env.host_data
                      env.newFd, ?_⟩
                  rw [hcall, afterConnect_success env ctrl _ dp _ h6 h7 h8]
                · right
                  have h6 := ioFailureOfNot env hio
                  have hfail := afterConnect_failure env ctrl
                    (poolInsert pool env.host_data env.newFd) dp env.newFd h6
                  have hcs : callSucceeds env pool = false := by
                    rcases h6 with h | h | h <;> simp [callSucceeds, h]
                  rw [hcall]
                  exact ⟨hcs, hfail.1, hfail.2.1, hfail.2.2.1,
                    hfail.2.2.2.1⟩
          · have hcall : Pchannel.CallMethod env ctrl pool dp
                = Pchannel.afterConnect env ctrl pool dp fd := by
              simp [Pchannel.CallMethod, hsr, hsh, hhd, hcol, hpl]
            by_cases hio : env.sendOk = true ∧ recvOk env.recv = true
                ∧ env.parseOk = true
            · left
              obtain ⟨h6, h7, h8⟩ := hio
              refine ⟨by simp [callSucceeds, hsr, hsh, hhd, hcol, hpl, h6,
                h7, h8], pool, ?_⟩
              rw [hcall, afterConnect_success env ctrl _ dp _ h6 h7 h8]
            · right
              have h6 := ioFailureOfNot env hio
              have hfail := afterConnect_failure env ctrl pool dp fd h6
              have hcs : callSucceeds env pool = false := by
                rcases h6 with h | h | h <;> simp [callSucceeds, h]
              rw [hcall]
              exact ⟨hcs, hfail.1, hfail.2.1, hfail.2.2.1, hfail.2.2.2.1⟩

/-- Claim C1: if every step of `Pchannel::CallMethod` succeeds, the
response is populated from the received bytes, `done` (when non-null)
runs exactly once before the call returns, and the controller's failed
flag remains false; if any step fails, the failed flag is set, the error
text is populated, `done` never runs and no response is recorded.  The
embedded `CallMethod` is a total function, mirroring that the C++ code
throws nothing to the caller. -/
theorem callmethod_contract (env : CallEnv) (ctrl : Pcontroller)
    (pool : Pool) (dp : Bool) (hf : ctrl.m_failed = false) :
    (callSucceeds env pool = true →
      (Pchannel.CallMethod env ctrl pool dp).ctrl = ctrl ∧
      (Pchannel.CallMethod env ctrl pool dp).ctrl.m_failed = false ∧
      (Pchannel.CallMethod env ctrl pool dp).responseBytes
        = some (deliveredBytes env.recv) ∧
      (Pchannel.CallMethod env ctrl pool dp).doneRuns
        = (if dp then 1 else 0)) ∧
    (callSucceeds env pool = false →
      (Pchannel.CallMethod env ctrl pool dp).ctrl.m_failed = true ∧
      (Pchannel.CallMethod env ctrl pool dp).ctrl.m_errText ≠ "" ∧
      (Pchannel.CallMethod env ctrl pool dp).doneRuns = 0 ∧
      (Pchannel.CallMethod env ctrl pool dp).responseBytes = none) := by
  rcases callmethod_cases env ctrl pool dp with
    ⟨hcs, pool2, heq⟩ | ⟨hcs, hfl, het, hdr, hrb⟩
  · constructor
    · intro _
      rw [heq]
      exact ⟨rfl, hf, rfl, rfl⟩
    · intro h
      rw [hcs] at h
      cases h
  · constructor
    · intro h
      rw [hcs] at h
      cases h
    · intro _
      exact ⟨hfl, het, hdr, hrb⟩

/-- Claim C1 witness: the contract evaluated on the concrete successful
environment with a fresh controller and a non-null `done`. -/
theorem callmethod_contract_witness :
    (Pchannel.CallMethod envOk Pcontroller.init [] true).ctrl.m_failed
      = false ∧
    (Pchannel.CallMethod envOk Pcontroller.init [] true).doneRuns = 1 := by
  have h := (callmethod_contract envOk Pcontroller.init [] true rfl).1
    (by decide)
  exact ⟨h.2.1, by rw [h.2.2.2]; rfl⟩

/-- Claim C7 counterexample: the receive-buffer ceiling of the client is
not 64 KiB; it does not even reach it, contradicting that an
implementation may only raise the 64 KiB ceiling. -/
theorem recv_buffer_below_64KiB : ¬(65536 ≤ RECV_BUF_SIZE) := by decide

/-- Claim C7 (amended): the per-response receive buffer of
`Pchannel::CallMethod` is `char recv_buf[1024]`, 1 KiB, and every
response the client records is read as one chunk of at most 1024
bytes. -/
theorem recv_chunk_bounded (env : CallEnv) (ctrl : Pcontroller)
    (pool : Pool) (dp : Bool) (bs : List Nat)
    (h : (Pchannel.CallMethod env ctrl pool dp).responseBytes = some bs) :
    bs.length ≤ RECV_BUF_SIZE ∧ RECV_BUF_SIZE = 1024 := by
  refine ⟨?_, rfl⟩
  rcases callmethod_cases env ctrl pool dp with
    ⟨_, pool2, heq⟩ | ⟨_, _, _, _, hnone⟩
  · rw [heq] at h
    have h2 : some (deliveredBytes env.recv) = some bs := h
    rw [← Option.some.inj h2]
    exact length_deliveredBytes env.recv
  · rw [hnone] at h
    cases h

/-- Claim C7 witness: the amended bound evaluated on the concrete
successful environment. -/
theorem recv_chunk_bounded_witness :
    ([1, 2, 3] : List Nat).length ≤ RECV_BUF_SIZE ∧ RECV_BUF_SIZE = 1024 :=
  recv_chunk_bounded envOk Pcontroller.init [] true [1, 2, 3] rfl

/-- Claim C3: when the channel has reached the I/O phase and the send,
receive or parse step fails, the controller is failed, the connection fd
is closed and its pool entry is erased (no connection that failed an
I/O operation stays in the pool); the receive failure is reported as
"recv timeout!" exactly when `recv` returned -1 with the timeout errno,
and as "recv error!" on other receive errors or peer close. -/
theorem io_failure_evicts_connection (env : CallEnv) (ctrl : Pcontroller)
    (pool : Pool) (dp : Bool)
    (h1 : env.serializeReqOk = true) (h2 : env.serializeHeaderOk = true)
    (h3 : ¬ env.host_data = "") (h4 : hasColon env.host_data = true)
    (h5 : (poolLookup pool env.host_data).isSome = true
        ∨ (env.socketOk = true ∧ env.connectOk = true))
    (h6 : env.sendOk = false ∨ recvOk env.recv = false
        ∨ env.parseOk = false) :
    (Pchannel.CallMethod env ctrl pool dp).ctrl.m_failed = true ∧
    poolLookup (Pchannel.CallMethod env ctrl pool dp).pool env.host_data
      = none ∧
    (Pchannel.CallMethod env ctrl pool dp).closedFds.length = 1 ∧
    (env.sendOk = false →
      (Pchannel.CallMethod env ctrl pool dp).ctrl.m_errText
        = "send error!") ∧
    (env.sendOk = true → env.recv = RecvOutcome.err true →
      (Pchannel.CallMethod env ctrl pool dp).ctrl.m_errText
        = "recv timeout!") ∧
    (env.sendOk = true → env.recv = RecvOutcome.err false →
      (Pchannel.CallMethod env ctrl pool dp).ctrl.m_errText
        = "recv error!") ∧
    (env.sendOk = true → env.recv = RecvOutcome.data [] →
      (Pchannel.CallMethod env ctrl pool dp).ctrl.m_errText
        = "recv error!") ∧
    (env.sendOk = true → recvOk env.recv = true → env.parseOk = false →
      (Pchannel.CallMethod env ctrl pool dp).ctrl.m_errText
        = "parse error!") := by
  have key : ∃ fd pool2, Pchannel.CallMethod env ctrl pool dp
      = Pchannel.afterConnect env ctrl pool2 dp fd := by
    rcases hpl : poolLookup pool env.host_data with _ | fd
    · have hsc : env.socketOk = true ∧ env.connectOk = true := by
        rcases h5 with h | h
        · rw [hpl] at h
          cases h
        · exact h
      exact ⟨env.newFd, poolInsert pool env.host_data env.newFd,
        by simp [Pchannel.CallMethod, h1, h2, h3, h4, hpl, hsc.1, hsc.2]⟩
    · exact ⟨fd, pool, by simp [Pchannel.CallMethod, h1, h2, h3, h4, hpl]⟩
  obtain ⟨fd, pool2, hcall⟩ := key
  have hfail := afterConnect_failure env ctrl pool2 dp fd h6
  rw [hcall]
  refine ⟨hfail.1, ?_, ?_, ?_, ?_, ?_, ?_, ?_⟩
  · rw [hfail.2.2.2.2.1]
    exact poolLookup_poolErase pool2 env.host_data
  · rw [hfail.2.2.2.2.2]
    rfl
  · intro hs0
    simp [Pchannel.afterConnect, hs0, Pcontroller.SetFailed]
  · intro hs1 hr
    simp [Pchannel.afterConnect, hs1, hr, Pcontroller.SetFailed]
  · intro hs1 hr
    simp [Pchannel.afterConnect, hs1, hr, Pcontroller.SetFailed]
  · intro hs1 hr
    simp [Pchannel.afterConnect, hs1, hr, Pcontroller.SetFailed]
  · intro hs1 hro hp0
    rcases hr : env.recv with t | bs
    · rw [hr] at hro
      simp [recvOk] at hro
    · have hbs : ¬(bs.length = 0) := by
        rw [hr] at hro
        simpa [recvOk] using hro
      simp [Pchannel.afterConnect, hs1, hr, hbs, hp0, Pcontroller.SetFailed]

/-- Claim C3 witness: the eviction-and-classification statement
evaluated on the concrete timeout environment. -/
theorem io_failure_evicts_connection_witness :
    (Pchannel.CallMethod envTimeout Pcontroller.init [] false).ctrl.m_errText
      = "recv timeout!" ∧
    poolLookup (Pchannel.CallMethod envTimeout Pcontroller.init [] false).pool
      envTimeout.host_data = none := by
  have h := io_failure_evicts_connection envTimeout Pcontroller.init []
    false rfl rfl (by decide) rfl (Or.inr ⟨rfl, rfl⟩)
    (Or.inr (Or.inl rfl))
  exact ⟨h.2.2.2.2.1 rfl rfl, h.2.1⟩

end Prpc
